import Mathlib

/-!
# Verification of the certainty-score engine (`calculate_certainty_score`, src/crew_server.py)

Shallow embedding of the "RIGOROUS CERTAINTY SCORE ENGINE v3.0" from
`src/crew_server.py` (lines 431-994) together with the caller-side status
derivation (line 1397).

Modelling conventions:
* Python strings are `List Char` (`Txt`); Python's substring test `a in b`
  is `pyIn`, `str.lower` is `pyLower` (ASCII), `str.replace`/`str.strip`
  are `pyReplace`/`pyStrip`.
* The results of the regular-expression matches over the diagnosis/query
  (`has_specific_component`, `re.findall` unit counts, `has_real_dmc`, ...)
  are taken as explicit inputs in `RegexFlags`; each field names the source
  variable holding the corresponding match result.  All plain-substring
  tests of the source (the subsystem inference table, the generic-phrase
  and electrical/mechanical term scans, document/ATA matching) are
  modelled concretely.
* Python floats: every weight is 0.25, 0.20 or 0.10, so the weighted sum is
  modelled exactly as a natural number scaled by 20 (0.25 = 5/20,
  0.20 = 4/20, 0.10 = 2/20).  For every reachable sub-score value the IEEE
  double computation of the source is exact (each weighted term is a
  representable multiple of 0.25), so the scaled model is faithful.
  `round` is Python's round-half-to-even on the scaled value (`pyRound20`).
* The breakdown detail strings and cap strings of the source are modelled
  as the inductive types `Detail` and `Cap` (one constructor per distinct
  message, numeric f-string interpolations kept as payloads).
-/

set_option maxRecDepth 100000

namespace AW139Cert

/-- Python strings, as lists of characters. -/
abbrev Txt := List Char

/-- Shorthand turning a Lean string literal into a `Txt`. -/
def txt (s : String) : Txt := s.data

/-- Python's substring test `needle in hay`. -/
def pyIn (needle hay : Txt) : Bool := hay.tails.any (fun t => needle.isPrefixOf t)

/-- Python's `str.lower()` (ASCII, which covers every string in the table). -/
def pyLower (s : Txt) : Txt := s.map Char.toLower

/-- Python's default `str.strip()` whitespace class. -/
def isPySpace (c : Char) : Bool :=
  c == ' ' || c == '\t' || c == '\n' || c == '\r' || c == '\x0b' || c == '\x0c'

/-- Python's `str.strip()`. -/
def pyStrip (s : Txt) : Txt :=
  ((s.dropWhile isPySpace).reverse.dropWhile isPySpace).reverse

/-- Fueled left-to-right non-overlapping replacement (Python `str.replace`).
The fuel `s.length` is enough because each step consumes at least one
character of the subject when the pattern is non-empty. -/
def pyReplaceFuel : Nat → Txt → Txt → Txt → Txt
  | 0, _, _, s => s
  | _ + 1, _, _, [] => []
  | fuel + 1, pat, rep, c :: rest =>
    if pat ≠ [] ∧ pat.isPrefixOf (c :: rest) then
      rep ++ pyReplaceFuel fuel pat rep ((c :: rest).drop pat.length)
    else
      c :: pyReplaceFuel fuel pat rep rest

/-- Python's `str.replace pat rep` (for the non-empty pattern `"ATA "`). -/
def pyReplace (pat rep s : Txt) : Txt := pyReplaceFuel s.length pat rep s

/-- Duplicate removal keeping first occurrences (Python `set(...)`; only the
cardinality and an order-insensitive count are consumed downstream). -/
def pyDedupAux (seen : List Txt) : List Txt → List Txt
  | [] => []
  | x :: xs =>
    if seen.contains x then pyDedupAux seen xs
    else x :: pyDedupAux (x :: seen) xs

/-- Python `set` of a list of words. -/
def pyDedup (l : List Txt) : List Txt := pyDedupAux [] l

/-- One retrieved document (`rag_result["documents"]` entry): `doc_path`,
`content` and the similarity score (`doc.get("score", 0) or
doc.get("similarity", 0)`), the latter as an exact rational. -/
structure Doc where
  doc_path : Txt
  content : Txt
  score : ℚ
deriving DecidableEq

/-- Results of the regular-expression scans of `calculate_certainty_score`;
each field is named after the source variable holding the match result.
The `*_matches` fields are the lengths of the `re.findall` result lists for
the seven `evidence_patterns`; `important_words` is the
`re.findall(r'\b[a-z]{4,}\b', query_clean)` word list. -/
structure RegexFlags where
  has_specific_component : Bool
  has_causal_reasoning : Bool
  has_mechanism_explanation : Bool
  has_specific_location : Bool
  has_failure_mode : Bool
  torque_matches : Nat
  pressure_matches : Nat
  voltage_matches : Nat
  current_matches : Nat
  temperature_matches : Nat
  dimension_matches : Nat
  resistance_matches : Nat
  has_real_dmc : Bool
  has_amp_ref : Bool
  has_awdp_ref : Bool
  has_real_part_number : Bool
  has_connector_pin : Bool
  important_words : List Txt
deriving DecidableEq

/-- The full argument tuple of `calculate_certainty_score` (the document
list stands for `rag_result`), plus the regex-scan results. -/
structure Args where
  flags : RegexFlags
  docs : List Doc
  diagnosis : Txt
  query : Txt
  ata_filter : Txt
  task_type : Txt
  has_awdp : Bool

/-- One entry of the `subsystem_map` static table. -/
structure SubsysRule where
  triggers : List Txt
  required : List Txt
  label : Txt

/-- `subsystem_map['steering']`. -/
def steering_rule : SubsysRule :=
  { triggers := [txt "turn", txt "turning", txt "steer", txt "steering", txt "taxi",
      txt "taxing", txt "taxiing", txt "ground maneuver"]
    required := [txt "steering", txt "nose wheel", txt "nosewheel", txt "nose gear",
      txt "nose landing gear", txt "shimmy damper", txt "torque link",
      txt "steering actuator", txt "steering valve", txt "steering cylinder",
      txt "castering", txt "tiller"]
    label := txt "Nose Wheel Steering System" }

/-- `subsystem_map['landing_gear']`. -/
def landing_gear_rule : SubsysRule :=
  { triggers := [txt "landing gear", txt "gear", txt "retract", txt "extend",
      txt "gear up", txt "gear down", txt "squat switch", txt "weight on wheels", txt "wow"]
    required := [txt "landing gear", txt "actuator", txt "uplock", txt "downlock",
      txt "squat switch", txt "gear door", txt "oleo", txt "strut", txt "retract",
      txt "extend", txt "selector valve"]
    label := txt "Landing Gear System" }

/-- `subsystem_map['hydraulic']`. -/
def hydraulic_rule : SubsysRule :=
  { triggers := [txt "hydraulic", txt "pressure", txt "pump", txt "fluid", txt "leak"]
    required := [txt "hydraulic pump", txt "reservoir", txt "accumulator",
      txt "pressure switch", txt "relief valve", txt "hydraulic module", txt "servo",
      txt "actuator", txt "manifold", txt "filter", txt "hydraulic system"]
    label := txt "Hydraulic System" }

/-- `subsystem_map['engine']`. -/
def engine_rule : SubsysRule :=
  { triggers := [txt "engine", txt "turbine", txt "power", txt "torque", txt "ng",
      txt "np", txt "itt", txt "start", txt "hot start", txt "hung start",
      txt "flameout", txt "ecu", txt "fadec"]
    required := [txt "engine", txt "turbine", txt "compressor", txt "combustion",
      txt "fuel control", txt "fuel nozzle", txt "igniter", txt "gearbox", txt "oil",
      txt "bearing", txt "fadec", txt "ecu"]
    label := txt "Engine/Powerplant System" }

/-- `subsystem_map['electrical']`. -/
def electrical_rule : SubsysRule :=
  { triggers := [txt "generator", txt "battery", txt "bus", txt "power loss",
      txt "electrical", txt "voltage", txt "breaker", txt "tripped", txt "no power"]
    required := [txt "generator", txt "battery", txt "bus", txt "contactor",
      txt "breaker", txt "relay", txt "transformer", txt "rectifier", txt "inverter",
      txt "gcr", txt "gcb", txt "btb"]
    label := txt "Electrical Power System" }

/-- `subsystem_map['flight_controls']`. -/
def flight_controls_rule : SubsysRule :=
  { triggers := [txt "cyclic", txt "collective", txt "pedal", txt "yaw", txt "pitch",
      txt "roll", txt "autopilot", txt "trim", txt "stick", txt "vibration"]
    required := [txt "servo", txt "actuator", txt "swashplate", txt "pitch link",
      txt "mixing unit", txt "trim", txt "boost", txt "feel spring",
      txt "gradient unit", txt "autopilot"]
    label := txt "Flight Control System" }

/-- `subsystem_map['rotor']`. -/
def rotor_rule : SubsysRule :=
  { triggers := [txt "rotor", txt "blade", txt "hub", txt "mast", txt "tail rotor",
      txt "main rotor", txt "track", txt "balance", txt "vibration", txt "lead-lag"]
    required := [txt "rotor", txt "blade", txt "hub", txt "damper", txt "bearing",
      txt "pitch horn", txt "lead-lag", txt "drag brace", txt "elastomeric",
      txt "spindle"]
    label := txt "Rotor System" }

/-- `subsystem_map['avionics']`. -/
def avionics_rule : SubsysRule :=
  { triggers := [txt "display", txt "screen", txt "cas", txt "warning", txt "caution",
      txt "advisory", txt "radio", txt "nav", txt "gps", txt "transponder",
      txt "ahrs", txt "adc"]
    required := [txt "display", txt "processor", txt "symbol generator", txt "dmu",
      txt "dcu", txt "sensor", txt "computer", txt "bus", txt "arinc", txt "can bus"]
    label := txt "Avionics System" }

/-- `subsystem_map['fuel']`. -/
def fuel_rule : SubsysRule :=
  { triggers := [txt "fuel", txt "tank", txt "boost pump", txt "transfer",
      txt "crossfeed", txt "quantity"]
    required := [txt "fuel pump", txt "fuel tank", txt "fuel valve", txt "boost pump",
      txt "transfer pump", txt "crossfeed", txt "fuel quantity", txt "fuel filter",
      txt "fuel line"]
    label := txt "Fuel System" }

/-- The `subsystem_map` table, in Python dict insertion order. -/
def subsystem_map : List SubsysRule :=
  [steering_rule, landing_gear_rule, hydraulic_rule, engine_rule, electrical_rule,
   flight_controls_rule, rotor_rule, avionics_rule, fuel_rule]

/-- The `stop_words` set of the keyword-overlap check. -/
def stop_words : List Txt :=
  [txt "does", txt "have", txt "been", txt "with", txt "that", txt "this",
   txt "from", txt "what", txt "when", txt "where", txt "which", txt "there",
   txt "their", txt "about", txt "would", txt "could", txt "should", txt "during",
   txt "before", txt "after", txt "helicopter", txt "aircraft", txt "system",
   txt "problem", txt "issue", txt "fault", txt "check"]

/-- The four literal alternatives of the generic-troubleshooting regex. -/
def generic_phrases : List Txt :=
  [txt "check continuity", txt "verify wiring", txt "inspect connector",
   txt "check hydraulic"]

/-- Terms of the `diagnosis_suggests_electrical` scan. -/
def electrical_terms : List Txt :=
  [txt "continuity", txt "wiring", txt "circuit", txt "resistance", txt "voltage"]

/-- Triggers of the `query_implies_mechanical` scan. -/
def mechanical_triggers : List Txt :=
  [txt "turn", txt "steering", txt "gear", txt "stuck", txt "binding", txt "seized",
   txt "jam", txt "stiff", txt "vibration", txt "noise", txt "grind", txt "click",
   txt "play", txt "loose", txt "worn"]

/-- The detail strings appended to the breakdown lists, one constructor per
distinct source message; f-string number interpolations are kept as
payloads. -/
inductive Detail where
  | noDocuments
  | coverageExcellent (matching total highRelevance : Nat)
  | coverageGoodFewHigh (matching total : Nat)
  | coverageModerate (matching total : Nat)
  | coverageWeak (matching total : Nat)
  | coveragePoor (matching total : Nat)
  | specificComponent
  | causalReasoning
  | mechanismExplained
  | locationReferenced
  | failureModeIdentified
  | warnNoComponentOrMechanism
  | warnNoCausalReasoning
  | evidenceFound (count : Nat) (keys : List Txt)
  | criticalMissingSubsystem (label : Txt)
  | weakKeywordOverlap (matched total : Nat)
  | subsystemPenalty (labels : List Txt)
  | subsystemVerified (labels : List Txt)
  | genericPenalty
  | electricalMismatchPenalty
  | awdpFoundAndReferenced
  | awdpFoundNotAnalyzed
  | awdpReferencedNotFound
  | warnNoAwdp
  | procedureReferenced
  | procedureNoReference
  | manualReferencesFound
  | noManualReferences
deriving DecidableEq

/-- The `caps_applied` entries, one constructor per distinct source message. -/
inductive Cap where
  | awdp85
  | generic80
  | noManualRef85
  | noComponent82
  | noCausal80
  | missingSubsystem (labels : List Txt)
  | electricalMismatch78
  | gate94
deriving DecidableEq

/-- `is_fault_type = task_type in ["fault_isolation", "operational_test",
"functional_test"]`. -/
def is_fault_type (task_type : Txt) : Bool :=
  task_type == txt "fault_isolation" || task_type == txt "operational_test" ||
    task_type == txt "functional_test"

/-- `is_procedure_type = task_type in ["remove_procedure", "install_procedure",
"disassembly", "assembly"]`. -/
def is_procedure_type (task_type : Txt) : Bool :=
  task_type == txt "remove_procedure" || task_type == txt "install_procedure" ||
    task_type == txt "disassembly" || task_type == txt "assembly"

/-- `ata_code = ata_filter.replace("ATA ", "").strip() if ata_filter else ""`. -/
def ata_code (ata_filter : Txt) : Txt :=
  if ata_filter = [] then [] else pyStrip (pyReplace (txt "ATA ") [] ata_filter)

/-- The three training-material identifiers checked before ATA narrowing. -/
def training_ids : List Txt :=
  [txt "PRIMUS_EPIC", txt "PT6C_67CD", txt "AW139_AIRFRAME"]

/-- The `training_keywords` dictionary (with `.get(ata_filter, [])`). -/
def training_keywords (ata_filter : Txt) : List Txt :=
  if ata_filter = txt "PRIMUS_EPIC" then
    [txt "primus", txt "epic", txt "avionics", txt "cmc", txt "fms"]
  else if ata_filter = txt "PT6C_67CD" then
    [txt "pt6c", txt "67c", txt "engine", txt "turbine", txt "power plant"]
  else if ata_filter = txt "AW139_AIRFRAME" then
    [txt "airframe", txt "structure", txt "fuselage", txt "cabin"]
  else []

/-- The per-document `is_match` computation of the coverage loop: the
training branch tests the keyword list against the lowered content/path; a
non-empty `ata_code` narrows by `f"-{ata_code[:2]}-" in doc_path`; an empty
`ata_code` matches every document. -/
def doc_is_match (ata_filter code : Txt) (d : Doc) : Bool :=
  let path := pyLower d.doc_path
  let content := pyLower d.content
  if ata_filter ∈ training_ids then
    (training_keywords ata_filter).any (fun kw => pyIn kw content || pyIn kw path)
  else if code ≠ [] ∧ pyIn (('-' :: code.take 2) ++ ['-']) path then true
  else code = []

/-- `matching_docs` after the coverage loop. -/
def matching_docs (ata_filter : Txt) (docs : List Doc) : Nat :=
  (docs.filter (doc_is_match ata_filter (ata_code ata_filter))).length

/-- `high_relevance_docs` after the coverage loop (matching documents with
similarity score above `0.7`). -/
def high_relevance_docs (ata_filter : Txt) (docs : List Doc) : Nat :=
  (docs.filter (fun d =>
    doc_is_match ata_filter (ata_code ata_filter) d && decide (mkRat 7 10 < d.score))).length

/-- `coverage_score`: tier table over the matching ratio (ratio comparisons
against the float literals 0.8/0.5/0.2 are exact at rational arguments) and
the high-relevance bonus. -/
def coverage_score (a : Args) : Nat :=
  let n := a.docs.length
  if n = 0 then 0
  else
    let m := matching_docs a.ata_filter a.docs
    let h := high_relevance_docs a.ata_filter a.docs
    if 4 * n ≤ 5 * m ∧ 3 ≤ h then 100
    else if 4 * n ≤ 5 * m then 85
    else if n ≤ 2 * m then 65
    else if n ≤ 5 * m then 40
    else 15

/-- `coverage_details`, mirroring the branch structure of `coverage_score`. -/
def coverage_details (a : Args) : List Detail :=
  let n := a.docs.length
  if n = 0 then [.noDocuments]
  else
    let m := matching_docs a.ata_filter a.docs
    let h := high_relevance_docs a.ata_filter a.docs
    if 4 * n ≤ 5 * m ∧ 3 ≤ h then [.coverageExcellent m n h]
    else if 4 * n ≤ 5 * m then [.coverageGoodFewHigh m n]
    else if n ≤ 2 * m then [.coverageModerate m n]
    else if n ≤ 5 * m then [.coverageWeak m n]
    else [.coveragePoor m n]

/-- `analysis_points`: 25/25/20/15/15 for the five extractor booleans. -/
def analysis_points (f : RegexFlags) : Nat :=
  (if f.has_specific_component then 25 else 0) +
  (if f.has_causal_reasoning then 25 else 0) +
  (if f.has_mechanism_explanation then 20 else 0) +
  (if f.has_specific_location then 15 else 0) +
  (if f.has_failure_mode then 15 else 0)

/-- `system_analysis_score`: points capped at 100, then the two internal
warning caps (≤30 without component/mechanism, ≤50 without causal
reasoning). -/
def system_analysis_score (f : RegexFlags) : Nat :=
  let s := min (analysis_points f) 100
  let s := if !f.has_specific_component && !f.has_mechanism_explanation then min s 30 else s
  if !f.has_causal_reasoning then min s 50 else s

/-- `analysis_details` in source append order. -/
def analysis_details (f : RegexFlags) : List Detail :=
  (if f.has_specific_component then [.specificComponent] else []) ++
  (if f.has_causal_reasoning then [.causalReasoning] else []) ++
  (if f.has_mechanism_explanation then [.mechanismExplained] else []) ++
  (if f.has_specific_location then [.locationReferenced] else []) ++
  (if f.has_failure_mode then [.failureModeIdentified] else []) ++
  (if !f.has_specific_component && !f.has_mechanism_explanation then
    [.warnNoComponentOrMechanism] else []) ++
  (if !f.has_causal_reasoning then [.warnNoCausalReasoning] else [])

/-- `evidence_count`: the seven unit-pattern match counts plus the weighted
structured-reference increments (DMC +3, AMP/AMM +2, AWDP +2, real part
number +2, connector/pin +1). -/
def evidence_count (f : RegexFlags) : Nat :=
  f.torque_matches + f.pressure_matches + f.voltage_matches + f.current_matches +
  f.temperature_matches + f.dimension_matches + f.resistance_matches +
  (if f.has_real_dmc then 3 else 0) +
  (if f.has_amp_ref then 2 else 0) +
  (if f.has_awdp_ref then 2 else 0) +
  (if f.has_real_part_number then 2 else 0) +
  (if f.has_connector_pin then 1 else 0)

/-- `evidence_score`: the step function of the evidence counter. -/
def evidence_score_of (n : Nat) : Nat :=
  if n = 0 then 0
  else if n ≤ 2 then 20
  else if n ≤ 4 then 40
  else if n ≤ 6 then 60
  else if n ≤ 9 then 80
  else 100

/-- `found_evidence` keys in dict insertion order. -/
def evidence_found (f : RegexFlags) : List Txt :=
  (if f.torque_matches ≠ 0 then [txt "torque"] else []) ++
  (if f.pressure_matches ≠ 0 then [txt "pressure"] else []) ++
  (if f.voltage_matches ≠ 0 then [txt "voltage"] else []) ++
  (if f.current_matches ≠ 0 then [txt "current"] else []) ++
  (if f.temperature_matches ≠ 0 then [txt "temperature"] else []) ++
  (if f.dimension_matches ≠ 0 then [txt "dimension"] else []) ++
  (if f.resistance_matches ≠ 0 then [txt "resistance"] else []) ++
  (if f.has_real_dmc then [txt "dmc_code"] else []) ++
  (if f.has_amp_ref then [txt "amp_ref"] else []) ++
  (if f.has_awdp_ref then [txt "awdp_ref"] else []) ++
  (if f.has_real_part_number then [txt "real_part_number"] else []) ++
  (if f.has_connector_pin then [txt "connector_pin"] else [])

/-- `evidence_details`. -/
def evidence_details (f : RegexFlags) : List Detail :=
  [.evidenceFound (evidence_count f) (evidence_found f)]

/-- `diagnosis_lower`. -/
def diagnosis_lower (a : Args) : Txt := pyLower a.diagnosis

/-- `query_lower`. -/
def query_lower (a : Args) : Txt := pyLower a.query

/-- Whether the query fires a rule of the subsystem inference engine. -/
def rule_triggered (a : Args) (r : SubsysRule) : Bool :=
  r.triggers.any (fun t => pyIn t (query_lower a))

/-- Whether the diagnosis mentions a required keyword of a rule. -/
def rule_covered (a : Args) (r : SubsysRule) : Bool :=
  r.required.any (fun k => pyIn k (diagnosis_lower a))

/-- `inferred_subsystems` after the subsystem loop. -/
def inferred_subsystems (a : Args) : List Txt :=
  (subsystem_map.filter (rule_triggered a)).map (·.label)

/-- `missing_subsystem_analysis` after the subsystem loop. -/
def missing_subsystem_analysis (a : Args) : List Txt :=
  (subsystem_map.filter (fun r => rule_triggered a r && !rule_covered a r)).map (·.label)

/-- `query_keywords`: the significant-word set (`important_words` filtered by
stop words and length, deduplicated by Python's `set`). -/
def query_keywords (a : Args) : List Txt :=
  pyDedup (a.flags.important_words.filter
    (fun w => !stop_words.contains w && decide (4 ≤ w.length)))

/-- `matched_keywords`: keywords occurring in the lowered diagnosis. -/
def matched_keywords (a : Args) : Nat :=
  ((query_keywords a).filter (fun kw => pyIn kw (diagnosis_lower a))).length

/-- The keyword-overlap tier of `alignment_score` before the three penalty
caps (ratio comparisons against 0.6/0.4/0.2 are exact at rational
arguments; an empty keyword set scores 50). -/
def base_alignment_score (a : Args) : Nat :=
  let k := (query_keywords a).length
  if k = 0 then 50
  else
    let m := matched_keywords a
    if 3 * k ≤ 5 * m then 100
    else if 2 * k ≤ 5 * m then 70
    else if k ≤ 5 * m then 45
    else 20

/-- `is_generic_diagnosis`: a generic-troubleshooting phrase with no
specific component and no mechanism explanation. -/
def is_generic_diagnosis (a : Args) : Bool :=
  generic_phrases.any (fun p => pyIn p (diagnosis_lower a)) &&
    !a.flags.has_specific_component && !a.flags.has_mechanism_explanation

/-- `diagnosis_suggests_electrical`. -/
def diagnosis_suggests_electrical (a : Args) : Bool :=
  electrical_terms.any (fun t => pyIn t (diagnosis_lower a))

/-- `query_implies_mechanical`. -/
def query_implies_mechanical (a : Args) : Bool :=
  mechanical_triggers.any (fun t => pyIn t (query_lower a))

/-- The electrical-checks-for-mechanical-problem mismatch condition. -/
def electrical_mismatch (a : Args) : Bool :=
  diagnosis_suggests_electrical a && query_implies_mechanical a &&
    !a.flags.has_mechanism_explanation

/-- `alignment_score`: base tier, then the subsystem (≤25), generic (≤35)
and electrical-mismatch (≤40) penalty caps in source order. -/
def alignment_score (a : Args) : Nat :=
  let s := base_alignment_score a
  let s := if missing_subsystem_analysis a ≠ [] then min s 25 else s
  let s := if is_generic_diagnosis a then min s 35 else s
  if electrical_mismatch a then min s 40 else s

/-- `alignment_details` in source append order. -/
def alignment_details (a : Args) : List Detail :=
  (missing_subsystem_analysis a).map .criticalMissingSubsystem ++
  (let k := (query_keywords a).length
   if k ≠ 0 ∧ ¬ 3 * k ≤ 5 * matched_keywords a ∧ ¬ 2 * k ≤ 5 * matched_keywords a ∧
       ¬ k ≤ 5 * matched_keywords a then
     [.weakKeywordOverlap (matched_keywords a) k]
   else []) ++
  (if missing_subsystem_analysis a ≠ [] then
    [.subsystemPenalty (missing_subsystem_analysis a)]
   else if inferred_subsystems a ≠ [] then
    [.subsystemVerified (inferred_subsystems a)]
   else []) ++
  (if is_generic_diagnosis a then [.genericPenalty] else []) ++
  (if electrical_mismatch a then [.electricalMismatchPenalty] else [])

/-- `diagram_score`: fault-type branch 100/70/60/20 by AWDP found/referenced,
procedure-type branch 100/40 by manual reference, generic branch 100/50. -/
def diagram_score (a : Args) : Nat :=
  if is_fault_type a.task_type then
    if a.has_awdp && a.flags.has_awdp_ref then 100
    else if a.has_awdp then 70
    else if a.flags.has_awdp_ref then 60
    else 20
  else if is_procedure_type a.task_type then
    if a.flags.has_amp_ref || a.flags.has_real_dmc then 100 else 40
  else
    if a.flags.has_amp_ref || a.flags.has_real_dmc || a.flags.has_awdp_ref then 100
    else 50

/-- `diagram_details`, mirroring `diagram_score`. -/
def diagram_details (a : Args) : List Detail :=
  if is_fault_type a.task_type then
    if a.has_awdp && a.flags.has_awdp_ref then [.awdpFoundAndReferenced]
    else if a.has_awdp then [.awdpFoundNotAnalyzed]
    else if a.flags.has_awdp_ref then [.awdpReferencedNotFound]
    else [.warnNoAwdp]
  else if is_procedure_type a.task_type then
    if a.flags.has_amp_ref || a.flags.has_real_dmc then [.procedureReferenced]
    else [.procedureNoReference]
  else
    if a.flags.has_amp_ref || a.flags.has_real_dmc || a.flags.has_awdp_ref then
      [.manualReferencesFound]
    else [.noManualReferences]

/-- The weighted sum, scaled by 20:
`coverage*0.25 + system*0.25 + evidence*0.20 + alignment*0.20 + diagram*0.10`. -/
def raw_score20 (a : Args) : Nat :=
  5 * coverage_score a + 5 * system_analysis_score a.flags +
  4 * evidence_score_of (evidence_count a.flags) + 4 * alignment_score a +
  2 * diagram_score a

/-- Condition of the first hard cap: fault-type task with no AWDP evidence. -/
def cap1_cond (a : Args) : Bool :=
  is_fault_type a.task_type && !a.has_awdp && !a.flags.has_awdp_ref

/-- Condition of the second hard cap: generic diagnosis. -/
def cap2_cond (a : Args) : Bool := is_generic_diagnosis a

/-- Condition of the third hard cap: no structured manual reference. -/
def cap3_cond (a : Args) : Bool :=
  !a.flags.has_amp_ref && !a.flags.has_real_dmc && !a.flags.has_awdp_ref

/-- Condition of the fourth hard cap: no component and no part number. -/
def cap4_cond (a : Args) : Bool :=
  !a.flags.has_specific_component && !a.flags.has_real_part_number

/-- Condition of the fifth hard cap: fault-type task without causal
reasoning. -/
def cap5_cond (a : Args) : Bool :=
  !a.flags.has_causal_reasoning && is_fault_type a.task_type

/-- Condition of the sixth hard cap: a subsystem flagged missing. -/
def cap6_cond (a : Args) : Bool := missing_subsystem_analysis a ≠ []

/-- Condition of the seventh hard cap: electrical/mechanical mismatch. -/
def cap7_cond (a : Args) : Bool := electrical_mismatch a

/-- One step of the cap cascade: `if cond and score > threshold: score =
threshold` (thresholds scaled by 20). -/
def clampCap (cond : Bool) (threshold20 s : Nat) : Nat :=
  if cond && decide (threshold20 < s) then threshold20 else s

/-- Score after the 85 AWDP cap. -/
def score1 (a : Args) : Nat := clampCap (cap1_cond a) (20 * 85) (raw_score20 a)

/-- Score after the 80 generic cap. -/
def score2 (a : Args) : Nat := clampCap (cap2_cond a) (20 * 80) (score1 a)

/-- Score after the 85 no-manual-reference cap. -/
def score3 (a : Args) : Nat := clampCap (cap3_cond a) (20 * 85) (score2 a)

/-- Score after the 82 no-component cap. -/
def score4 (a : Args) : Nat := clampCap (cap4_cond a) (20 * 82) (score3 a)

/-- Score after the 80 no-causal-reasoning cap. -/
def score5 (a : Args) : Nat := clampCap (cap5_cond a) (20 * 80) (score4 a)

/-- Score after the 75 missing-subsystem cap. -/
def score6 (a : Args) : Nat := clampCap (cap6_cond a) (20 * 75) (score5 a)

/-- Score after the 78 electrical-mismatch cap. -/
def score7 (a : Args) : Nat := clampCap (cap7_cond a) (20 * 78) (score6 a)

/-- `can_exceed_95`: the conjunction of the nine strict gate conditions. -/
def can_exceed_95 (a : Args) : Bool :=
  decide (75 ≤ system_analysis_score a.flags) &&
  decide (85 ≤ coverage_score a) &&
  decide (5 ≤ evidence_count a.flags) &&
  decide (70 ≤ alignment_score a) &&
  a.flags.has_specific_component &&
  a.flags.has_causal_reasoning &&
  decide (missing_subsystem_analysis a = []) &&
  (!is_fault_type a.task_type || a.has_awdp || a.flags.has_awdp_ref) &&
  (a.flags.has_amp_ref || a.flags.has_real_dmc || a.flags.has_awdp_ref)

/-- Score after the 95%+ unlock gate: forced to 94 when the post-cap score
reaches 95 without all nine conditions. -/
def score_gated (a : Args) : Nat :=
  if decide (20 * 95 ≤ score7 a) && !can_exceed_95 a then 20 * 94 else score7 a

/-- The `caps_applied` list: each entry is appended exactly when its cap
condition holds and the score at that point strictly exceeds the
threshold; the final entry records the 95%+ gate forcing. -/
def caps_applied (a : Args) : List Cap :=
  (if cap1_cond a && decide (20 * 85 < raw_score20 a) then [Cap.awdp85] else []) ++
  (if cap2_cond a && decide (20 * 80 < score1 a) then [Cap.generic80] else []) ++
  (if cap3_cond a && decide (20 * 85 < score2 a) then [Cap.noManualRef85] else []) ++
  (if cap4_cond a && decide (20 * 82 < score3 a) then [Cap.noComponent82] else []) ++
  (if cap5_cond a && decide (20 * 80 < score4 a) then [Cap.noCausal80] else []) ++
  (if cap6_cond a && decide (20 * 75 < score5 a) then
    [Cap.missingSubsystem (missing_subsystem_analysis a)] else []) ++
  (if cap7_cond a && decide (20 * 78 < score6 a) then [Cap.electricalMismatch78] else []) ++
  (if decide (20 * 95 ≤ score7 a) && !can_exceed_95 a then [Cap.gate94] else [])

/-- Python's `round` (half to even) applied to a score scaled by 20. -/
def pyRound20 (s : Nat) : Nat :=
  let q := s / 20
  let r := s % 20
  if r < 10 then q
  else if 10 < r then q + 1
  else if q % 2 = 0 then q else q + 1

/-- `final_score = max(40, min(round(final_score), 100))`. -/
def final_score (a : Args) : Nat :=
  max 40 (min (pyRound20 (score_gated a)) 100)

/-- The returned dictionary of `calculate_certainty_score` (the constant
`weight` entries 0.25/0.25/0.20/0.20/0.10 of the breakdown are omitted). -/
structure Output where
  score : Nat
  coverage_score : Nat
  coverage_details : List Detail
  system_analysis_score : Nat
  analysis_details : List Detail
  evidence_score : Nat
  evidence_count : Nat
  evidence_details : List Detail
  alignment_score : Nat
  alignment_details : List Detail
  diagram_score : Nat
  diagram_details : List Detail
  can_exceed_95 : Bool
  caps_applied : List Cap
  evidence_found : List Txt
deriving DecidableEq

/-- The full `calculate_certainty_score` pipeline. -/
def calculate_certainty_score (a : Args) : Output :=
  { score := final_score a
    coverage_score := coverage_score a
    coverage_details := coverage_details a
    system_analysis_score := system_analysis_score a.flags
    analysis_details := analysis_details a.flags
    evidence_score := evidence_score_of (evidence_count a.flags)
    evidence_count := evidence_count a.flags
    evidence_details := evidence_details a.flags
    alignment_score := alignment_score a
    alignment_details := alignment_details a
    diagram_score := diagram_score a
    diagram_details := diagram_details a
    can_exceed_95 := can_exceed_95 a
    caps_applied := caps_applied a
    evidence_found := evidence_found a.flags }

/-- `CERTAINTY_THRESHOLD` (src/crew_server.py line 32). -/
def CERTAINTY_THRESHOLD : Nat := 95

/-- Caller-side status derivation (src/crew_server.py line 1397):
`"SAFE_TO_PROCEED" if certainty_score >= CERTAINTY_THRESHOLD else
"REQUIRE_EXPERT"`. -/
def certainty_status (score : Nat) : Txt :=
  if CERTAINTY_THRESHOLD ≤ score then txt "SAFE_TO_PROCEED" else txt "REQUIRE_EXPERT"

/-! ## Reachable sub-score values and helper lemmas -/

/-- The values `coverage_score` can take. -/
def covValues : List Nat := [0, 15, 40, 65, 85, 100]

/-- The values `system_analysis_score` can take. -/
def sysValues : List Nat :=
  [0, 15, 20, 25, 30, 35, 40, 45, 50, 55, 60, 65, 70, 75, 80, 85, 100]

/-- The values `evidence_score_of` can take. -/
def evValues : List Nat := [0, 20, 40, 60, 80, 100]

/-- The values `alignment_score` can take. -/
def alValues : List Nat := [20, 25, 35, 40, 45, 50, 70, 100]

/-- The values `diagram_score` can take. -/
def diValues : List Nat := [20, 40, 50, 60, 70, 100]

/-! ## Concrete inputs used in witnesses and counterexamples

`flags0` is the regex-scan result on the empty diagnosis: no pattern of the
source matches the empty string, so every flag is false and every count 0.
`flagsGood` corresponds to a diagnosis carrying every kind of evidence
(all five analysis booleans, ten torque values, a DMC reference and a part
number). -/

/-- Regex flags of an empty diagnosis (no regex matches the empty string). -/
def flags0 : RegexFlags :=
  { has_specific_component := false, has_causal_reasoning := false
    has_mechanism_explanation := false, has_specific_location := false
    has_failure_mode := false, torque_matches := 0, pressure_matches := 0
    voltage_matches := 0, current_matches := 0, temperature_matches := 0
    dimension_matches := 0, resistance_matches := 0, has_real_dmc := false
    has_amp_ref := false, has_awdp_ref := false, has_real_part_number := false
    has_connector_pin := false, important_words := [] }

/-- Regex flags of an evidence-rich diagnosis mentioning the word
"bearing": component/causal/mechanism/location/failure-mode all present,
ten torque quantities, a DMC reference, a real part number, no AWDP or
AMP reference. -/
def flagsGood : RegexFlags :=
  { has_specific_component := true, has_causal_reasoning := true
    has_mechanism_explanation := true, has_specific_location := true
    has_failure_mode := true, torque_matches := 10, pressure_matches := 0
    voltage_matches := 0, current_matches := 0, temperature_matches := 0
    dimension_matches := 0, resistance_matches := 0, has_real_dmc := true
    has_amp_ref := false, has_awdp_ref := false, has_real_part_number := true
    has_connector_pin := false, important_words := [txt "bearing"] }

/-- Three retrieved documents with similarity 0.8 (above the 0.7
high-relevance threshold). -/
def docsGood : List Doc :=
  [ { doc_path := txt "a.pdf", content := [], score := mkRat 4 5 },
    { doc_path := txt "b.pdf", content := [], score := mkRat 4 5 },
    { doc_path := txt "c.pdf", content := [], score := mkRat 4 5 } ]

/-- A single retrieved document whose path carries no ATA chapter marker. -/
def docU : Doc := { doc_path := txt "doc.pdf", content := [], score := 0 }

/-- Entirely empty input. -/
def argsEmpty : Args :=
  { flags := flags0, docs := [], diagnosis := [], query := [], ata_filter := []
    task_type := [], has_awdp := false }

/-- The scenario of the spec: `documents=[]`, `diagnosis=""`,
`query="test"`, default `ata_filter`/`task_type`/`has_awdp`.  The keyword
regex extracts the single word "test" from the query. -/
def argsScenario : Args :=
  { flags := { flags0 with important_words := [txt "test"] }
    docs := [], diagnosis := [], query := txt "test", ata_filter := []
    task_type := txt "fault_isolation", has_awdp := false }

/-- Query "taxi" (a steering trigger), empty diagnosis (mentions no
steering keyword), no documents, defaults otherwise. -/
def argsTaxi : Args :=
  { flags := { flags0 with important_words := [txt "taxi"] }
    docs := [], diagnosis := [], query := txt "taxi", ata_filter := []
    task_type := txt "fault_isolation", has_awdp := false }

/-- Evidence-rich input with an unknown task type. -/
def argsMystery : Args :=
  { flags := flagsGood, docs := docsGood, diagnosis := txt "bearing"
    query := txt "bearing", ata_filter := [], task_type := txt "mystery_task"
    has_awdp := false }

/-- The same evidence-rich input with `task_type = "fault_isolation"`. -/
def argsFault : Args :=
  { flags := flagsGood, docs := docsGood, diagnosis := txt "bearing"
    query := txt "bearing", ata_filter := [], task_type := txt "fault_isolation"
    has_awdp := false }

/-- One non-matching document behind an unknown non-empty `ata_filter`. -/
def argsUnknown : Args :=
  { flags := flags0, docs := [docU], diagnosis := [], query := []
    ata_filter := txt "UNKNOWN_FILTER", task_type := txt "fault_isolation"
    has_awdp := false }

/-- Empty input except for three torque quantities in the diagnosis. -/
def argsEv3 : Args :=
  { flags := { flags0 with torque_matches := 3 }
    docs := [], diagnosis := [], query := [], ata_filter := []
    task_type := [], has_awdp := false }

lemma coverage_score_mem (a : Args) : coverage_score a ∈ covValues := by
  unfold coverage_score
  dsimp only
  split_ifs <;> decide

lemma system_analysis_score_mem (f : RegexFlags) :
    system_analysis_score f ∈ sysValues := by
  unfold system_analysis_score analysis_points
  cases f.has_specific_component <;> cases f.has_causal_reasoning <;>
    cases f.has_mechanism_explanation <;> cases f.has_specific_location <;>
    cases f.has_failure_mode <;> decide

lemma evidence_score_of_mem (n : Nat) : evidence_score_of n ∈ evValues := by
  unfold evidence_score_of
  split_ifs <;> decide

lemma alignment_score_mem (a : Args) : alignment_score a ∈ alValues := by
  unfold alignment_score base_alignment_score
  dsimp only
  split_ifs <;> decide

lemma diagram_score_mem (a : Args) : diagram_score a ∈ diValues := by
  unfold diagram_score
  split_ifs <;> decide

lemma mem_le_100 {x : Nat} {l : List Nat} (hl : ∀ y ∈ l, y ≤ 100) (h : x ∈ l) :
    x ≤ 100 := hl x h

lemma coverage_score_le (a : Args) : coverage_score a ≤ 100 :=
  mem_le_100 (by decide) (coverage_score_mem a)

lemma system_analysis_score_le (f : RegexFlags) : system_analysis_score f ≤ 100 :=
  mem_le_100 (by decide) (system_analysis_score_mem f)

lemma evidence_score_of_le (n : Nat) : evidence_score_of n ≤ 100 :=
  mem_le_100 (by decide) (evidence_score_of_mem n)

lemma alignment_score_le (a : Args) : alignment_score a ≤ 100 :=
  mem_le_100 (by decide) (alignment_score_mem a)

/-- Over the reachable sub-score values, the scaled weighted sum never lands
strictly between 94.5 and 95 (scaled: between 1890 and 1900), so rounding a
below-95 post-cap score can never reach 95. -/
lemma weighted_gap :
    ∀ c ∈ covValues, ∀ s ∈ sysValues, ∀ e ∈ evValues, ∀ al ∈ alValues,
      ∀ d ∈ diValues,
      5*c + 5*s + 4*e + 4*al + 2*d ≤ 1890 ∨ 1900 ≤ 5*c + 5*s + 4*e + 4*al + 2*d := by
  decide

lemma raw_score20_gap (a : Args) :
    raw_score20 a ≤ 1890 ∨ 1900 ≤ raw_score20 a := by
  unfold raw_score20
  exact weighted_gap _ (coverage_score_mem a) _ (system_analysis_score_mem a.flags)
    _ (evidence_score_of_mem (evidence_count a.flags)) _ (alignment_score_mem a)
    _ (diagram_score_mem a)

lemma clampCap_cases (c : Bool) (t s : Nat) :
    clampCap c t s = t ∨ clampCap c t s = s := by
  unfold clampCap
  split <;> simp

lemma clampCap_le_self (c : Bool) (t s : Nat) : clampCap c t s ≤ s := by
  unfold clampCap
  split_ifs with h
  · simp only [Bool.and_eq_true, decide_eq_true_eq] at h
    omega
  · exact Nat.le_refl s

lemma clampCap_gap (c : Bool) {t s : Nat} (ht : t ≤ 1890)
    (h : s ≤ 1890 ∨ 1900 ≤ s) :
    clampCap c t s ≤ 1890 ∨ 1900 ≤ clampCap c t s := by
  unfold clampCap
  split <;> omega

lemma score7_gap (a : Args) : score7 a ≤ 1890 ∨ 1900 ≤ score7 a := by
  unfold score7 score6 score5 score4 score3 score2 score1
  exact clampCap_gap _ (by omega)
    (clampCap_gap _ (by omega)
      (clampCap_gap _ (by omega)
        (clampCap_gap _ (by omega)
          (clampCap_gap _ (by omega)
            (clampCap_gap _ (by omega)
              (clampCap_gap _ (by omega) (raw_score20_gap a)))))))

/-- A score of at most `20*k` rounds to at most `k`. -/
lemma pyRound20_le {k s : Nat} (h : s ≤ 20 * k) : pyRound20 s ≤ k := by
  unfold pyRound20
  dsimp only
  split_ifs <;> omega

/-- A score of at most 1890 (94.5) never rounds up to 95: 94.5 itself rounds
half-to-even down to 94. -/
lemma pyRound20_le_94 {s : Nat} (h : s ≤ 1890) : pyRound20 s ≤ 94 := by
  unfold pyRound20
  dsimp only
  split_ifs <;> omega

lemma mem_cap_chunk (x y : Cap) (c : Bool) :
    x ∈ (if c = true then [y] else []) ↔ (c = true ∧ x = y) := by
  cases c <;> simp

lemma caps_awdp85_iff (a : Args) :
    Cap.awdp85 ∈ caps_applied a ↔ (cap1_cond a = true ∧ 20 * 85 < raw_score20 a) := by
  simp [caps_applied, mem_cap_chunk, Bool.and_eq_true, decide_eq_true_eq]

lemma caps_generic80_iff (a : Args) :
    Cap.generic80 ∈ caps_applied a ↔ (cap2_cond a = true ∧ 20 * 80 < score1 a) := by
  simp [caps_applied, mem_cap_chunk, Bool.and_eq_true, decide_eq_true_eq]

lemma caps_noManualRef85_iff (a : Args) :
    Cap.noManualRef85 ∈ caps_applied a ↔ (cap3_cond a = true ∧ 20 * 85 < score2 a) := by
  simp [caps_applied, mem_cap_chunk, Bool.and_eq_true, decide_eq_true_eq]

lemma caps_noComponent82_iff (a : Args) :
    Cap.noComponent82 ∈ caps_applied a ↔ (cap4_cond a = true ∧ 20 * 82 < score3 a) := by
  simp [caps_applied, mem_cap_chunk, Bool.and_eq_true, decide_eq_true_eq]

lemma caps_noCausal80_iff (a : Args) :
    Cap.noCausal80 ∈ caps_applied a ↔ (cap5_cond a = true ∧ 20 * 80 < score4 a) := by
  simp [caps_applied, mem_cap_chunk, Bool.and_eq_true, decide_eq_true_eq]

lemma caps_missingSubsystem_iff (a : Args) (labels : List Txt) :
    Cap.missingSubsystem labels ∈ caps_applied a ↔
      (cap6_cond a = true ∧ 20 * 75 < score5 a ∧
        labels = missing_subsystem_analysis a) := by
  simp [caps_applied, mem_cap_chunk, Bool.and_eq_true, decide_eq_true_eq]
  tauto

lemma caps_electricalMismatch78_iff (a : Args) :
    Cap.electricalMismatch78 ∈ caps_applied a ↔
      (cap7_cond a = true ∧ 20 * 78 < score6 a) := by
  simp [caps_applied, mem_cap_chunk, Bool.and_eq_true, decide_eq_true_eq]

lemma caps_gate94_iff (a : Args) :
    Cap.gate94 ∈ caps_applied a ↔
      (20 * 95 ≤ score7 a ∧ can_exceed_95 a = false) := by
  simp [caps_applied, mem_cap_chunk, Bool.and_eq_true, decide_eq_true_eq,
    Bool.not_eq_true']

/-! ## Claim theorems -/

/-- Claim C1: for every input (any document list, diagnosis text, query,
`ata_filter`, `task_type`, `has_awdp` flag, and any regex-scan result),
the score returned by `calculate_certainty_score` is an integer — the model
returns a natural number, as Python's `round` returns `int` — and satisfies
`40 <= score <= 100`. -/
theorem C1_final_score_bounds (a : Args) :
    40 ≤ (calculate_certainty_score a).score ∧
      (calculate_certainty_score a).score ≤ 100 := by
  show 40 ≤ final_score a ∧ final_score a ≤ 100
  unfold final_score
  omega

/-- Claim C2: for every input, if `can_exceed_95` (the conjunction of the
nine strict gate conditions) is false, the returned score is not in
95..100: a post-cap score of at least 95 is forced to exactly 94, and
rounding a post-cap score below 95 never reaches 95 (the reachable weighted
sums below 95 are at most 94.5, which rounds half-to-even down to 94). -/
theorem C2_gate_blocks_95 (a : Args)
    (h : (calculate_certainty_score a).can_exceed_95 = false) :
    (calculate_certainty_score a).score ≤ 94 ∧
      (20 * 95 ≤ score7 a → (calculate_certainty_score a).score = 94) := by
  have h' : can_exceed_95 a = false := h
  have key : ∀ g : Nat,
      (if decide (20 * 95 ≤ score7 a) && !can_exceed_95 a then 20 * 94 else score7 a) = g →
      max 40 (min (pyRound20 g) 100) ≤ 94 ∧
        (20 * 95 ≤ score7 a → max 40 (min (pyRound20 g) 100) = 94) := by
    intro g hgdef
    split_ifs at hgdef with hg
    · subst hgdef
      have hr : pyRound20 (20 * 94) = 94 := by decide
      constructor
      · omega
      · intro _
        omega
    · simp only [Bool.and_eq_true, decide_eq_true_eq, Bool.not_eq_true'] at hg
      subst hgdef
      have h7 := score7_gap a
      have hlt : score7 a ≤ 1890 := by
        rcases h7 with h7 | h7
        · exact h7
        · exact absurd ⟨by omega, h'⟩ hg
      have hr := pyRound20_le_94 hlt
      constructor
      · omega
      · intro hge
        exact absurd ⟨by omega, h'⟩ hg
  exact key (score_gated a) rfl

/-- Witness for C2 at the empty input, whose gate is false. -/
theorem C2_witness :
    (calculate_certainty_score argsEmpty).can_exceed_95 = false ∧
      (calculate_certainty_score argsEmpty).score ≤ 94 :=
  ⟨by decide, (C2_gate_blocks_95 argsEmpty (by decide)).1⟩

/-- Claim C8: the evidence sub-score is a monotonically non-decreasing
function of the weighted evidence counter: holding everything else fixed,
an input whose counter is at least as large never gets a smaller evidence
sub-score (which covers every tier step 0/20/40/60/80/100). -/
theorem C8_evidence_monotone (a b : Args)
    (h : evidence_count a.flags ≤ evidence_count b.flags) :
    (calculate_certainty_score a).evidence_score ≤
      (calculate_certainty_score b).evidence_score := by
  show evidence_score_of (evidence_count a.flags) ≤
    evidence_score_of (evidence_count b.flags)
  unfold evidence_score_of
  split_ifs <;> omega

/-- Witness for C8: counter 0 against counter 3 (tier 0 against tier 3-4). -/
theorem C8_witness :
    evidence_count argsEmpty.flags ≤ evidence_count argsEv3.flags ∧
      (calculate_certainty_score argsEmpty).evidence_score ≤
        (calculate_certainty_score argsEv3).evidence_score :=
  ⟨by decide, C8_evidence_monotone argsEmpty argsEv3 (by decide)⟩

/-- Claim C9: `calculate_certainty_score` is deterministic — two calls
whose arguments (documents, diagnosis, query, `ata_filter`, `task_type`,
`has_awdp`, and the regex-scan results) agree componentwise return the
same full output: the same score, sub-scores, details lists, caps and
gate flag.  The model is a pure function; the source's only side effect
on this path is diagnostic printing. -/
theorem C9_deterministic (a b : Args) (h1 : a.flags = b.flags)
    (h2 : a.docs = b.docs) (h3 : a.diagnosis = b.diagnosis)
    (h4 : a.query = b.query) (h5 : a.ata_filter = b.ata_filter)
    (h6 : a.task_type = b.task_type) (h7 : a.has_awdp = b.has_awdp) :
    calculate_certainty_score a = calculate_certainty_score b := by
  obtain ⟨af, ad, adg, aq, aat, att, ahw⟩ := a
  obtain ⟨bf, bd, bdg, bq, bat, btt, bhw⟩ := b
  simp only at h1 h2 h3 h4 h5 h6 h7
  subst h1 h2 h3 h4 h5 h6 h7
  rfl

/-- Witness for C9 at a concrete pair of identical argument tuples. -/
theorem C9_witness :
    calculate_certainty_score argsScenario = calculate_certainty_score argsScenario :=
  C9_deterministic argsScenario argsScenario rfl rfl rfl rfl rfl rfl rfl

/-- Claim C3: for every input with a fault-type `task_type`, `has_awdp`
false and no AWDP-format reference in the diagnosis, the returned score is
at most 85 (the 85 cap is applied before the 95+ gate, which then cannot
fire since 85 < 95).  The second conjunct shows that under these
conditions the weighted sum itself never exceeds 92 (the diagram sub-score
is pinned at 20), so the spec's "weighted sum without this cap would be
96" situation is unreachable and its conditional is vacuous. -/
theorem C3_fault_no_awdp_cap85 (a : Args)
    (h1 : is_fault_type a.task_type = true) (h2 : a.has_awdp = false)
    (h3 : a.flags.has_awdp_ref = false) :
    (calculate_certainty_score a).score ≤ 85 ∧ raw_score20 a ≤ 20 * 92 := by
  have hcond : cap1_cond a = true := by
    simp [cap1_cond, h1, h2, h3]
  have hs1 : score1 a ≤ 1700 := by
    unfold score1 clampCap
    split_ifs with h
    · exact Nat.le_refl _
    · simp only [hcond, Bool.true_and, decide_eq_true_eq] at h
      omega
  have hs7 : score7 a ≤ 1700 :=
    le_trans (clampCap_le_self _ _ _)
      (le_trans (clampCap_le_self _ _ _)
        (le_trans (clampCap_le_self _ _ _)
          (le_trans (clampCap_le_self _ _ _)
            (le_trans (clampCap_le_self _ _ _)
              (le_trans (clampCap_le_self _ _ _) hs1)))))
  constructor
  · show final_score a ≤ 85
    unfold final_score score_gated
    split_ifs with hg
    · simp only [Bool.and_eq_true, decide_eq_true_eq] at hg
      omega
    · have hr : pyRound20 (score7 a) ≤ 85 := pyRound20_le (by omega)
      omega
  · have hdi : diagram_score a = 20 := by
      simp [diagram_score, h1, h2, h3]
    have hc := coverage_score_le a
    have hsy := system_analysis_score_le a.flags
    have hev := evidence_score_of_le (evidence_count a.flags)
    have hal := alignment_score_le a
    unfold raw_score20
    rw [hdi]
    omega

/-- Witness for C3: the evidence-rich fault-isolation input, where the
weighted sum is 92 and the cap lowers the score to exactly 85. -/
theorem C3_witness :
    is_fault_type argsFault.task_type = true ∧ argsFault.has_awdp = false ∧
      argsFault.flags.has_awdp_ref = false ∧
      (calculate_certainty_score argsFault).score ≤ 85 ∧
      (calculate_certainty_score argsFault).score = 85 ∧
      raw_score20 argsFault = 20 * 92 :=
  ⟨by decide, by decide, by decide,
    (C3_fault_no_awdp_cap85 argsFault (by decide) (by decide) (by decide)).1,
    by decide, by decide⟩

/-- Claim C7: the scorer is total over its documented input domain (in the
model it is a total function; no operation on the translated path can
fail), and at the spec's scenario `documents=[]`, `diagnosis=""`,
`query="test"` with default `task_type` the coverage sub-score is 0, the
evidence count is 0, the returned score is exactly the floor 40, and the
caller-side status is `REQUIRE_EXPERT`. -/
theorem C7_empty_input_floor :
    (calculate_certainty_score argsScenario).coverage_score = 0 ∧
      (calculate_certainty_score argsScenario).evidence_count = 0 ∧
      (calculate_certainty_score argsScenario).score = 40 ∧
      certainty_status (calculate_certainty_score argsScenario).score =
        txt "REQUIRE_EXPERT" := by
  decide

/-- Counterexample to claim C4 as stated: for the input with query "taxi"
(a steering trigger), an empty diagnosis (hence no steering required
keyword) and no documents, `caps_applied` is empty — it contains no entry
naming the missing steering subsystem, because the raw score (6) never
exceeded the 75 cap threshold, so the cap was never recorded. -/
theorem C4_counterexample :
    steering_rule.triggers.any (fun t => pyIn t (query_lower argsTaxi)) = true ∧
      steering_rule.required.any (fun k => pyIn k (diagnosis_lower argsTaxi)) = false ∧
      (calculate_certainty_score argsTaxi).caps_applied = [] := by
  decide

/-- Claim C4 as amended: for every input whose query contains a steering
trigger word and whose diagnosis contains none of the steering required
keywords, the query-alignment sub-score is at most 25 and the score after
the global caps (hence also the final score) is at most 75; the
missing-subsystem entry appears in `caps_applied` if and only if the score
entering that cap strictly exceeded 75 (i.e. exactly when the cap actually
lowered the score). -/
theorem C4_amended (a : Args)
    (h1 : steering_rule.triggers.any (fun t => pyIn t (query_lower a)) = true)
    (h2 : steering_rule.required.any (fun k => pyIn k (diagnosis_lower a)) = false) :
    alignment_score a ≤ 25 ∧ score7 a ≤ 20 * 75 ∧
      (calculate_certainty_score a).score ≤ 75 ∧
      (Cap.missingSubsystem (missing_subsystem_analysis a) ∈
          (calculate_certainty_score a).caps_applied ↔ 20 * 75 < score5 a) := by
  have hmem : steering_rule.label ∈ missing_subsystem_analysis a := by
    unfold missing_subsystem_analysis
    refine List.mem_map.mpr ⟨steering_rule, ?_, rfl⟩
    refine List.mem_filter.mpr ⟨?_, ?_⟩
    · show steering_rule ∈ subsystem_map
      simp [subsystem_map]
    · show (rule_triggered a steering_rule && !rule_covered a steering_rule) = true
      simp [rule_triggered, rule_covered, h1, h2]
  have hne : missing_subsystem_analysis a ≠ [] := by
    intro h
    rw [h] at hmem
    exact absurd hmem (List.not_mem_nil _)
  have hc6 : cap6_cond a = true := by
    simp [cap6_cond, hne]
  have hs6 : score6 a ≤ 1500 := by
    unfold score6 clampCap
    split_ifs with h
    · exact Nat.le_refl _
    · simp only [hc6, Bool.true_and, decide_eq_true_eq] at h
      omega
  have hs7 : score7 a ≤ 1500 := le_trans (clampCap_le_self _ _ _) hs6
  refine ⟨?_, by omega, ?_, ?_⟩
  · unfold alignment_score
    dsimp only
    rw [if_pos hne]
    split_ifs <;> omega
  · show final_score a ≤ 75
    unfold final_score score_gated
    split_ifs with hg
    · simp only [Bool.and_eq_true, decide_eq_true_eq] at hg
      omega
    · have hr : pyRound20 (score7 a) ≤ 75 := pyRound20_le (by omega)
      omega
  · show Cap.missingSubsystem (missing_subsystem_analysis a) ∈ caps_applied a ↔ _
    rw [caps_missingSubsystem_iff]
    simp [hc6]

/-- Witness for the amended C4 at the concrete "taxi" input. -/
theorem C4_witness :
    alignment_score argsTaxi ≤ 25 ∧ score7 argsTaxi ≤ 20 * 75 ∧
      (calculate_certainty_score argsTaxi).score ≤ 75 ∧
      (Cap.missingSubsystem (missing_subsystem_analysis argsTaxi) ∈
          (calculate_certainty_score argsTaxi).caps_applied ↔
        20 * 75 < score5 argsTaxi) :=
  C4_amended argsTaxi (by decide) (by decide)

/-- Counterexample to claim C5 as stated: two inputs identical in every
argument except `task_type` — one with the unknown value "mystery_task",
one with "fault_isolation" — give different diagram sub-scores (100 against
20) and different final scores (100 against 85): an unknown task type is
not treated as `fault_isolation`; it falls into the generic diagram branch
and escapes both fault-type-only hard caps. -/
theorem C5_counterexample :
    is_fault_type argsMystery.task_type = false ∧
      argsMystery.flags = argsFault.flags ∧ argsMystery.docs = argsFault.docs ∧
      argsMystery.diagnosis = argsFault.diagnosis ∧
      argsMystery.query = argsFault.query ∧
      argsMystery.ata_filter = argsFault.ata_filter ∧
      argsMystery.has_awdp = argsFault.has_awdp ∧
      argsFault.task_type = txt "fault_isolation" ∧
      (calculate_certainty_score argsMystery).diagram_score = 100 ∧
      (calculate_certainty_score argsFault).diagram_score = 20 ∧
      (calculate_certainty_score argsMystery).score = 100 ∧
      (calculate_certainty_score argsFault).score = 85 := by
  decide

/-- Claim C5 as amended: an input whose `task_type` is neither fault-type
nor procedure-type (in particular any unknown enum value) takes the generic
diagram branch — sub-score 100 if any manual reference (AMP/DMC/AWDP)
exists, else 50 — and neither the 85 AWDP cap nor the 80
no-causal-reasoning cap (both restricted to fault-type tasks) is ever
recorded. -/
theorem C5_amended (a : Args) (h1 : is_fault_type a.task_type = false)
    (h2 : is_procedure_type a.task_type = false) :
    (calculate_certainty_score a).diagram_score =
      (if a.flags.has_amp_ref || a.flags.has_real_dmc || a.flags.has_awdp_ref
        then 100 else 50) ∧
      Cap.awdp85 ∉ (calculate_certainty_score a).caps_applied ∧
      Cap.noCausal80 ∉ (calculate_certainty_score a).caps_applied := by
  refine ⟨?_, ?_, ?_⟩
  · show diagram_score a = _
    simp [diagram_score, h1, h2]
  · show Cap.awdp85 ∉ caps_applied a
    rw [caps_awdp85_iff]
    rintro ⟨hc, -⟩
    simp [cap1_cond, h1] at hc
  · show Cap.noCausal80 ∉ caps_applied a
    rw [caps_noCausal80_iff]
    rintro ⟨hc, -⟩
    simp [cap5_cond, h1] at hc

/-- Witness for the amended C5 at the unknown task type "mystery_task". -/
theorem C5_witness :
    (calculate_certainty_score argsMystery).diagram_score =
      (if argsMystery.flags.has_amp_ref || argsMystery.flags.has_real_dmc ||
          argsMystery.flags.has_awdp_ref then 100 else 50) ∧
      Cap.awdp85 ∉ (calculate_certainty_score argsMystery).caps_applied ∧
      Cap.noCausal80 ∉ (calculate_certainty_score argsMystery).caps_applied :=
  C5_amended argsMystery (by decide) (by decide)

/-- Counterexample to claim C6 as stated: with the unknown non-empty
filter "UNKNOWN_FILTER" (not a training identifier) and one retrieved
document whose path carries no "-UN-" marker, the document does not count
as matching — the matching ratio is 0, not 1.0, and the coverage sub-score
is 15 (the bottom tier), not the 100%-eligible tier. -/
theorem C6_counterexample :
    argsUnknown.ata_filter ∉ training_ids ∧ ata_code argsUnknown.ata_filter ≠ [] ∧
      matching_docs argsUnknown.ata_filter argsUnknown.docs = 0 ∧
      argsUnknown.docs.length = 1 ∧
      (calculate_certainty_score argsUnknown).coverage_score = 15 := by
  decide

/-- Claim C6 as amended: any `ata_filter` outside the three training
identifiers is treated as an ATA chapter code — after stripping, a
document matches iff `-XX-` (the first two characters of the stripped
code) occurs in its lowered path; only a filter that is (or strips to)
empty applies no narrowing, in which case every document matches. -/
theorem C6_amended (af : Txt) (docs : List Doc) (h : af ∉ training_ids) :
    (ata_code af ≠ [] →
      matching_docs af docs = (docs.filter (fun d =>
        pyIn (('-' :: (ata_code af).take 2) ++ ['-']) (pyLower d.doc_path))).length) ∧
      (ata_code af = [] → matching_docs af docs = docs.length) := by
  constructor
  · intro hc
    unfold matching_docs
    congr 1
    apply List.filter_congr
    intro d _
    unfold doc_is_match
    rw [if_neg h]
    by_cases hp : pyIn (('-' :: (ata_code af).take 2) ++ ['-']) (pyLower d.doc_path) = true
    · rw [if_pos ⟨hc, hp⟩]
      exact hp.symm
    · have hp' : pyIn (('-' :: (ata_code af).take 2) ++ ['-']) (pyLower d.doc_path) = false := by
        revert hp
        cases pyIn (('-' :: (ata_code af).take 2) ++ ['-']) (pyLower d.doc_path) <;> simp
      rw [if_neg (fun hcon => hp hcon.2), hp']
      exact decide_eq_false hc
  · intro hc
    unfold matching_docs
    rw [List.filter_eq_self.mpr ?_]
    intro d _
    unfold doc_is_match
    rw [if_neg h, if_neg (fun hcon => hcon.1 hc)]
    exact decide_eq_true hc

/-- Witness for the amended C6 at the filter "UNKNOWN_FILTER". -/
theorem C6_witness :
    txt "UNKNOWN_FILTER" ∉ training_ids ∧
      matching_docs (txt "UNKNOWN_FILTER") [docU] =
        ([docU].filter (fun d =>
          pyIn (('-' :: (ata_code (txt "UNKNOWN_FILTER")).take 2) ++ ['-'])
            (pyLower d.doc_path))).length :=
  ⟨by decide, (C6_amended (txt "UNKNOWN_FILTER") [docU] (by decide)).1 (by decide)⟩

/-- Claim C10: each global hard-cap entry is recorded in `caps_applied`
exactly when its condition holds and the score at that point of the
cascade strictly exceeds the (scaled) cap value — i.e. exactly the caps
that actually lowered the score — and the "CAP 94%" entry appears iff the
95+ gate forcing fired (post-cap score at least 95 with a false gate). -/
theorem C10_caps_exact (a : Args) :
    (Cap.awdp85 ∈ (calculate_certainty_score a).caps_applied ↔
      cap1_cond a = true ∧ 20 * 85 < raw_score20 a) ∧
    (Cap.generic80 ∈ (calculate_certainty_score a).caps_applied ↔
      cap2_cond a = true ∧ 20 * 80 < score1 a) ∧
    (Cap.noManualRef85 ∈ (calculate_certainty_score a).caps_applied ↔
      cap3_cond a = true ∧ 20 * 85 < score2 a) ∧
    (Cap.noComponent82 ∈ (calculate_certainty_score a).caps_applied ↔
      cap4_cond a = true ∧ 20 * 82 < score3 a) ∧
    (Cap.noCausal80 ∈ (calculate_certainty_score a).caps_applied ↔
      cap5_cond a = true ∧ 20 * 80 < score4 a) ∧
    (∀ labels, Cap.missingSubsystem labels ∈ (calculate_certainty_score a).caps_applied ↔
      cap6_cond a = true ∧ 20 * 75 < score5 a ∧
        labels = missing_subsystem_analysis a) ∧
    (Cap.electricalMismatch78 ∈ (calculate_certainty_score a).caps_applied ↔
      cap7_cond a = true ∧ 20 * 78 < score6 a) ∧
    (Cap.gate94 ∈ (calculate_certainty_score a).caps_applied ↔
      20 * 95 ≤ score7 a ∧ can_exceed_95 a = false) :=
  ⟨caps_awdp85_iff a, caps_generic80_iff a, caps_noManualRef85_iff a,
    caps_noComponent82_iff a, caps_noCausal80_iff a,
    fun labels => caps_missingSubsystem_iff a labels,
    caps_electricalMismatch78_iff a, caps_gate94_iff a⟩

end AW139Cert
